import Mathlib

/-!
Shallow embedding of the custom-slide-annotation editor core
(`src/unnamed/part_001`, the `SlideEditor` component, and
`src/frontend/src/App.tsx`, the save round trip).

Numbers (`x`, `y`, `width`, `height`, `fontSize`, Konva scale factors) are
modelled as rationals.  JavaScript exceptions (a `TypeError` from reading a
property of `undefined`) are modelled as `Except.error`.  React state updates
are modelled as pure state transformers on `EditorState`.
-/

namespace SlideEditorModel

/-- The `ShapeData` interface from `src/unnamed/part_001` lines 9-23.  `type` is the
`'text' | 'rect'` union; optional TS fields are `Option`s. -/
inductive ShapeType where
  | text
  | rect
deriving Repr, DecidableEq

structure ShapeData where
  id : String
  name : Option String := none
  x : ℚ
  y : ℚ
  width : ℚ
  height : ℚ
  type : ShapeType
  text : Option String := none
  fontSize : Option ℚ := none
  fill : Option String := none
  fontStyle : Option String := none
  align : Option String := none
  draggable : Option Bool := none
deriving Repr, DecidableEq

/-- The `SlideData` interface from `src/unnamed/part_001` lines 25-30. -/
structure SlideData where
  id : String
  index : Nat
  backgroundColor : String
  shapes : List ShapeData
deriving Repr, DecidableEq

/-- The `PresentationData` interface from `src/unnamed/part_001` lines 32-37. -/
structure PresentationData where
  width : ℚ
  height : ℚ
  slides : List SlideData
  error : Option String := none
deriving Repr, DecidableEq

/-- A `Partial<ShapeData>` patch as constructed by the interaction handlers
(`{x, y}` on drag end, `{x, y, width, height}` on transform end,
`{text}` on text-edit commit).  The handlers never patch `id` or `type`,
so those fields are absent.  A present field overrides the shape's value
under JS object spread `{...shape, ...newAttrs}`. -/
structure ShapePatch where
  name : Option String := none
  x : Option ℚ := none
  y : Option ℚ := none
  width : Option ℚ := none
  height : Option ℚ := none
  text : Option String := none
  fontSize : Option ℚ := none
  fill : Option String := none
  fontStyle : Option String := none
  align : Option String := none
  draggable : Option Bool := none
deriving Repr, DecidableEq

/-- A present patch field overrides, an absent one keeps the old value:
the optional-field case of the spread `{...shape, ...newAttrs}`. -/
def overrideOpt (p : Option A) (old : Option A) : Option A :=
  match p with
  | some v => some v
  | none => old

/-- The JS object spread `{...shape, ...newAttrs}` of
`handleShapeChange` (`src/unnamed/part_001` lines 279-282). -/
def mergeShape (s : ShapeData) (p : ShapePatch) : ShapeData :=
  { s with
    name := overrideOpt p.name s.name
    x := (p.x).getD s.x
    y := (p.y).getD s.y
    width := (p.width).getD s.width
    height := (p.height).getD s.height
    text := overrideOpt p.text s.text
    fontSize := overrideOpt p.fontSize s.fontSize
    fill := overrideOpt p.fill s.fill
    fontStyle := overrideOpt p.fontStyle s.fontStyle
    align := overrideOpt p.align s.align
    draggable := overrideOpt p.draggable s.draggable }

/-- List indexing, `l[i]` in JS (`undefined` becomes `none`). -/
def nth : List A → Nat → Option A
  | [], _ => none
  | a :: _, 0 => some a
  | _ :: as, n + 1 => nth as n

/-- In-place update of the element at index `i` (`arr[i] = f(arr[i])`);
out-of-range indices leave the list unchanged. -/
def updateAt : List A → Nat → (A → A) → List A
  | [], _, _ => []
  | a :: as, 0, f => f a :: as
  | a :: as, n + 1, f => a :: updateAt as n f

/-- JS `Array.prototype.findIndex`, returning `none` for JS `-1`. -/
def findIndex (p : A → Bool) : List A → Option Nat
  | [] => none
  | a :: as => if p a then some 0 else (findIndex p as).map (fun n => n + 1)

/-- The React state of `SlideEditor` (`src/unnamed/part_001` lines 252-256):
`currentSlideIndex`, `selectedShapeId`, `localPresentation`, `hasChanges`,
`saving`. -/
structure EditorState where
  localPresentation : PresentationData
  currentSlideIndex : Nat
  selectedShapeId : Option String := none
  hasChanges : Bool := false
  saving : Bool := false
deriving Repr, DecidableEq

/-- The `handleShapeChange` handler (`src/unnamed/part_001` lines 273-287).
`newPresentation.slides[slideIndex]` is `undefined` when
`currentSlideIndex` is out of range, so reading `.shapes` of it throws a
`TypeError`, modelled as `Except.error ()`.  When `findIndex` misses
(`shapeIndex < 0`) the state is returned untouched; otherwise the shape is
replaced by the spread merge and `hasChanges` is set. -/
def handleShapeChange (st : EditorState) (shapeId : String) (newAttrs : ShapePatch) :
    Except Unit EditorState :=
  match nth st.localPresentation.slides st.currentSlideIndex with
  | none => Except.error ()
  | some slide =>
    match findIndex (fun s => s.id == shapeId) slide.shapes with
    | none => Except.ok st
    | some j =>
      Except.ok { st with
        localPresentation := { st.localPresentation with
          slides := updateAt st.localPresentation.slides st.currentSlideIndex
            (fun sl => { sl with shapes := updateAt sl.shapes j (fun s => mergeShape s newAttrs) }) }
        hasChanges := true }

/-- A sequence of `handleShapeChange` calls, in call order; the first thrown
`TypeError` aborts the sequence. -/
def applyCalls (st : EditorState) : List (String × ShapePatch) → Except Unit EditorState
  | [] => Except.ok st
  | (sid, p) :: rest =>
    match handleShapeChange st sid p with
    | Except.error e => Except.error e
    | Except.ok st1 => applyCalls st1 rest

/-- The patches of a call sequence addressed to shape id `sid`, in call
order. -/
def patchesFor (sid : String) : List (String × ShapePatch) → List ShapePatch
  | [] => []
  | (s, p) :: rest => if s == sid then p :: patchesFor sid rest else patchesFor sid rest

/-- Left-fold merge of a list of patches over a shape's attributes. -/
def mergeFold (s : ShapeData) (ps : List ShapePatch) : ShapeData :=
  ps.foldl mergeShape s

/-- The geometry-and-scale state of a Konva node that the transform and drag
handlers read (`node.x()`, `node.y()`, `node.width()`, `node.height()`,
`node.scaleX()`, `node.scaleY()`). -/
structure KonvaNode where
  x : ℚ
  y : ℚ
  width : ℚ
  height : ℚ
  scaleX : ℚ := 1
  scaleY : ℚ := 1
deriving Repr, DecidableEq

/-- The `onTransformEnd` handler of `EditableText` (`src/unnamed/part_001` lines 141-156)
and of `EditableRect` (lines 215-230), which are textually identical: the
node's scale is reset to 1 and a patch
`{x, y, width: max(20, width*scaleX), height: max(20, height*scaleY)}` is
emitted.  Returns the node after the reset and the emitted patch. -/
def onTransformEnd (node : KonvaNode) : KonvaNode × ShapePatch :=
  ({ node with scaleX := 1, scaleY := 1 },
   { x := some node.x
     y := some node.y
     width := some (max 20 (node.width * node.scaleX))
     height := some (max 20 (node.height * node.scaleY)) })

/-- The `onDragEnd` handler of `EditableText` (lines 135-140) and `EditableRect`
(lines 209-214): a patch `{x, y}` with the node's final position. -/
def onDragEnd (node : KonvaNode) : ShapePatch :=
  { x := some node.x, y := some node.y }

/-- The ephemeral textarea created by `handleDblClick`
(`src/unnamed/part_001` lines 67-113); only its `value` matters to the
commit path. -/
structure EditSurface where
  value : String
deriving Repr, DecidableEq

/-- The `handleDblClick` handler pre-fills the textarea with the shape's current text
(`textarea.value = shapeData.text || ''`, line 81). -/
def handleDblClick (shape : ShapeData) : EditSurface :=
  { value := shape.text.getD "" }

/-- The `handleBlur` handler (lines 102-105): emits the patch `{text: textarea.value}`
and removes the textarea.  The `Bool` records that the surface was
destroyed. -/
def handleBlur (surface : EditSurface) : ShapePatch × Bool :=
  ({ text := some surface.value }, true)

/-- The Escape keydown handler (lines 108-112) calls `textarea.blur()`,
which fires `handleBlur`: cancellation is the same code path as
commit-on-blur. -/
def escapeKeydown (surface : EditSurface) : ShapePatch × Bool :=
  handleBlur surface

/-- The `useEffect` on the `presentation` prop (`src/unnamed/part_001`
lines 261-264): `setLocalPresentation(presentation)` and
`setHasChanges(false)` — and nothing else. -/
def loadPresentation (st : EditorState) (p : PresentationData) : EditorState :=
  { st with localPresentation := p, hasChanges := false }

/-- The Prev button (lines 315-320): disabled iff `currentSlideIndex === 0`,
otherwise `setCurrentSlideIndex(i => i - 1)`.  A click on a disabled button
does nothing. -/
def prevClick (st : EditorState) : EditorState :=
  if st.currentSlideIndex == 0 then st
  else { st with currentSlideIndex := st.currentSlideIndex - 1 }

/-- The Next button (lines 324-329): disabled iff
`currentSlideIndex === slides.length - 1` (JS arithmetic, so the comparison
is over integers), otherwise `setCurrentSlideIndex(i => i + 1)`. -/
def nextClick (st : EditorState) : EditorState :=
  if (st.currentSlideIndex : ℤ) == (st.localPresentation.slides.length : ℤ) - 1 then st
  else { st with currentSlideIndex := st.currentSlideIndex + 1 }

/-- A thumbnail click (lines 407-410): `setCurrentSlideIndex(index)` and
`setSelectedShapeId(null)`.  The rendered thumbnails only supply indices
`0 .. slides.length - 1`. -/
def thumbnailClick (st : EditorState) (index : Nat) : EditorState :=
  { st with currentSlideIndex := index, selectedShapeId := none }

/-- The disabled condition of the save button (line 339):
`!hasChanges || saving`. -/
def saveButtonDisabled (st : EditorState) : Bool :=
  !st.hasChanges || st.saving

/-- A click on the save button.  The DOM ignores clicks on a disabled
button; otherwise `handleSave` starts: `setSaving(true)` and exactly one
request is handed to the `onSave` collaborator.  The `Bool` records whether
a request was sent. -/
def clickSave (st : EditorState) : EditorState × Bool :=
  if saveButtonDisabled st then (st, false)
  else ({ st with saving := true }, true)

/-- The outcome of the `fetch('/api/save-presentation', ...)` round trip in
`App.tsx`: an HTTP response with its `ok`/JSON payload, or a transport
error. -/
inductive FetchResult where
  | ok (success : Bool) (pptxBase64 : Option String)
  | httpError (status : Nat)
  | transportError
deriving Repr, DecidableEq

/-- What `handleSavePresentation` (`src/frontend/src/App.tsx` lines 67-87)
does with a response: non-ok status and transport errors are caught,
logged, and surfaced as `alert('Failed to save presentation')`; on success
with a payload the PPTX is downloaded.  Every path is caught, so the
returned promise always resolves: `threw = false` on all branches. -/
structure AppSaveResult where
  alertShown : Bool
  downloaded : Bool
  threw : Bool
deriving Repr, DecidableEq

def handleSavePresentation : FetchResult → AppSaveResult
  | FetchResult.ok success pptx =>
    { alertShown := false, downloaded := success && pptx.isSome, threw := false }
  | FetchResult.httpError _ =>
    { alertShown := true, downloaded := false, threw := false }
  | FetchResult.transportError =>
    { alertShown := true, downloaded := false, threw := false }

/-- The editor's `handleSave` (`src/unnamed/part_001` lines 296-304) after `await onSave`
resolves or rejects: `setHasChanges(false)` runs only when `onSave`
resolved; the `finally` block clears `saving` on both paths. -/
def handleSaveSettle (st : EditorState) (onSaveThrew : Bool) : EditorState :=
  if onSaveThrew then { st with saving := false }
  else { st with hasChanges := false, saving := false }

/-- The composed save round trip as wired in `App.tsx` line 168
(`onSave={handleSavePresentation}`): the editor's `handleSave` awaits
`handleSavePresentation`, which never rejects. -/
def savePipeline (st : EditorState) (resp : FetchResult) : EditorState × AppSaveResult :=
  let r := handleSavePresentation resp
  (handleSaveSettle st r.threw, r)

/-- What `SlideEditor` returns (lines 306-308 and 310-427): when
`localPresentation.slides[currentSlideIndex]` is `undefined` the component
returns the `slide-editor-empty` fallback before any canvas, shape lookup,
patch or save code runs; otherwise the editor view over the current
slide. -/
inductive RenderView where
  | empty
  | editor (currentSlide : SlideData)
deriving Repr, DecidableEq

def render (st : EditorState) : RenderView :=
  match nth st.localPresentation.slides st.currentSlideIndex with
  | none => RenderView.empty
  | some slide => RenderView.editor slide

/-! Concrete sample data, used to evaluate the development on closed
inputs. -/

def shapeA : ShapeData :=
  { id := "a", x := 10, y := 10, width := 100, height := 40,
    type := ShapeType.text, text := some "Q1 Revenue" }

def shapeB : ShapeData :=
  { id := "b", x := 200, y := 100, width := 120, height := 60,
    type := ShapeType.rect, fill := some "#1e293b" }

def slide0 : SlideData :=
  { id := "slide0", index := 0, backgroundColor := "#ffffff",
    shapes := [shapeA, shapeB] }

def slide1 : SlideData :=
  { id := "slide1", index := 1, backgroundColor := "#000000", shapes := [] }

def samplePres : PresentationData :=
  { width := 960, height := 540, slides := [slide0, slide1] }

def singleSlidePres : PresentationData :=
  { width := 960, height := 540, slides := [slide1] }

def sampleState : EditorState :=
  { localPresentation := samplePres, currentSlideIndex := 0 }

def dirtyState : EditorState :=
  { localPresentation := samplePres, currentSlideIndex := 0, hasChanges := true }

def selectedState : EditorState :=
  { localPresentation := samplePres, currentSlideIndex := 1,
    selectedShapeId := some "a", hasChanges := true }

def navSelectedState : EditorState :=
  { localPresentation := samplePres, currentSlideIndex := 0,
    selectedShapeId := some "a" }

def staleIndexState : EditorState :=
  { localPresentation := samplePres, currentSlideIndex := 1 }

def exampleResizeNode : KonvaNode :=
  { x := 100, y := 100, width := 200, height := 50,
    scaleX := 1/20, scaleY := 1/20 }

def tinyShape : ShapeData :=
  { id := "tiny", x := 0, y := 0, width := 10, height := 10,
    type := ShapeType.rect }

def tinyNode : KonvaNode :=
  { x := 5, y := 5, width := 10, height := 10 }

def outOfRangeState : EditorState :=
  { localPresentation := samplePres, currentSlideIndex := 5 }

def emptySlidesState : EditorState :=
  { localPresentation := { width := 960, height := 540, slides := [] },
    currentSlideIndex := 0 }

/-- A sample call sequence for evaluating `applyCalls` on closed input. -/
def sampleCalls : List (String × ShapePatch) :=
  [("a", { x := some 50 }),
   ("a", { text := some "Q2 Revenue" }),
   ("b", { fill := some "#ff0000" })]

/-! Helper lemmas about the list primitives. -/

theorem nth_updateAt_self (l : List A) (i : Nat) (f : A → A) :
    nth (updateAt l i f) i = (nth l i).map f := by
  induction l generalizing i with
  | nil => cases i <;> rfl
  | cons a as ih =>
    cases i with
    | zero => rfl
    | succ n => exact ih n

theorem nth_updateAt_ne (l : List A) (i k : Nat) (f : A → A) (h : k ≠ i) :
    nth (updateAt l i f) k = nth l k := by
  induction l generalizing i k with
  | nil => rfl
  | cons a as ih =>
    cases i with
    | zero =>
      cases k with
      | zero => exact absurd rfl h
      | succ m => rfl
    | succ n =>
      cases k with
      | zero => rfl
      | succ m => exact ih n m (fun hh => h (by rw [hh]))

theorem findIndex_isSome_of_exists (p : A → Bool) (l : List A)
    (h : ∃ a ∈ l, p a = true) : ∃ j, findIndex p l = some j := by
  induction l with
  | nil => rcases h with ⟨a, ha, _⟩; cases ha
  | cons b bs ih =>
    by_cases hb : p b = true
    · exact ⟨0, by simp [findIndex, hb]⟩
    · rcases h with ⟨a, ha, hpa⟩
      rcases List.mem_cons.mp ha with rfl | hmem
      · exact absurd hpa hb
      · rcases ih ⟨a, hmem, hpa⟩ with ⟨j, hj⟩
        exact ⟨j + 1, by simp [findIndex, hb, hj]⟩

theorem findIndex_eq_none_of_all (p : A → Bool) (l : List A)
    (h : ∀ a ∈ l, p a = false) : findIndex p l = none := by
  induction l with
  | nil => rfl
  | cons b bs ih =>
    have hb := h b (List.mem_cons_self b bs)
    simp [findIndex, hb, ih (fun a ha => h a (List.mem_cons_of_mem b ha))]

theorem map_congr_on (l : List A) (f g : A → B) (h : ∀ x ∈ l, f x = g x) :
    l.map f = l.map g := by
  induction l with
  | nil => rfl
  | cons a as ih =>
    simp only [List.map_cons]
    rw [h a (List.mem_cons_self a as), ih (fun x hx => h x (List.mem_cons_of_mem a hx))]

theorem map_eq_self_on (l : List A) (f : A → A) (h : ∀ x ∈ l, f x = x) :
    l.map f = l := by
  induction l with
  | nil => rfl
  | cons a as ih =>
    simp only [List.map_cons]
    rw [h a (List.mem_cons_self a as), ih (fun x hx => h x (List.mem_cons_of_mem a hx))]

/-- The spread merge never touches `id` (the patch has no `id` field). -/
theorem mergeShape_id (s : ShapeData) (p : ShapePatch) : (mergeShape s p).id = s.id :=
  rfl

/-- With pairwise-distinct shape ids, updating the shape found by
`findIndex` is the same as mapping the id-guarded merge over the whole
list. -/
theorem updateAt_findIndex_eq_map (l : List ShapeData) (sid : String) (p : ShapePatch)
    (hnodup : (l.map ShapeData.id).Nodup) (j : Nat)
    (hj : findIndex (fun s => s.id == sid) l = some j) :
    updateAt l j (fun s => mergeShape s p) =
      l.map (fun s => if s.id == sid then mergeShape s p else s) := by
  induction l generalizing j with
  | nil => cases hj
  | cons a as ih =>
    rw [List.map_cons, List.nodup_cons] at hnodup
    rcases hnodup with ⟨hnotin, htail⟩
    by_cases ha : a.id = sid
    · have ha' : (a.id == sid) = true := by simp [ha]
      have hj0 : j = 0 := by
        simp [findIndex, ha'] at hj
        omega
      subst hj0
      simp only [updateAt, List.map_cons, ha', if_pos]
      rw [map_eq_self_on]
      intro s hs
      have hne : ¬(s.id == sid) = true := by
        simp only [beq_iff_eq]
        intro hc
        exact hnotin (by
          rw [ha, ← hc]
          exact List.mem_map_of_mem ShapeData.id hs)
      rw [if_neg hne]
    · have ha' : (a.id == sid) = false := by simp [ha]
      have hj' : ∃ j0, findIndex (fun s => s.id == sid) as = some j0 ∧ j0 + 1 = j := by
        simp only [findIndex, ha', Bool.false_eq_true, if_false] at hj
        exact Option.map_eq_some'.mp hj
      rcases hj' with ⟨j0, hj0, rfl⟩
      simp only [updateAt, List.map_cons, ha', Bool.false_eq_true, if_false]
      rw [ih htail j0 hj0]

/-- The id-guarded merge map preserves the list of shape ids. -/
theorem ids_map_guardedMerge (l : List ShapeData) (sid : String) (p : ShapePatch) :
    ((l.map (fun s => if s.id == sid then mergeShape s p else s)).map ShapeData.id) =
      l.map ShapeData.id := by
  rw [List.map_map]
  apply map_congr_on
  intro s _
  by_cases h : (s.id == sid) = true
  · simp only [Function.comp_apply, h, if_pos]
    exact mergeShape_id s p
  · simp only [Function.comp_apply, if_neg h]

/-- One successful `handleShapeChange` call, characterized slide-by-slide:
the current slide's shapes become the id-guarded merge map, everything else
is preserved. -/
theorem handleShapeChange_found (st : EditorState) (sid : String) (p : ShapePatch)
    (cs : SlideData)
    (hcs : nth st.localPresentation.slides st.currentSlideIndex = some cs)
    (hex : ∃ s ∈ cs.shapes, s.id = sid)
    (hnodup : (cs.shapes.map ShapeData.id).Nodup) :
    ∃ st1, handleShapeChange st sid p = Except.ok st1 ∧
      st1.currentSlideIndex = st.currentSlideIndex ∧
      st1.selectedShapeId = st.selectedShapeId ∧
      st1.localPresentation.width = st.localPresentation.width ∧
      st1.localPresentation.height = st.localPresentation.height ∧
      st1.hasChanges = true ∧
      (∀ i, i ≠ st.currentSlideIndex →
        nth st1.localPresentation.slides i = nth st.localPresentation.slides i) ∧
      nth st1.localPresentation.slides st.currentSlideIndex =
        some { cs with
          shapes := cs.shapes.map (fun s => if s.id == sid then mergeShape s p else s) } := by
  have hexb : ∃ s ∈ cs.shapes, (fun s : ShapeData => s.id == sid) s = true := by
    rcases hex with ⟨s, hs, hid⟩
    exact ⟨s, hs, by simp [hid]⟩
  rcases findIndex_isSome_of_exists _ _ hexb with ⟨j, hj⟩
  refine ⟨{ st with
      localPresentation := { st.localPresentation with
        slides := updateAt st.localPresentation.slides st.currentSlideIndex
          (fun sl => { sl with shapes := updateAt sl.shapes j (fun s => mergeShape s p) }) }
      hasChanges := true }, ?_, rfl, rfl, rfl, rfl, rfl, ?_, ?_⟩
  · rw [handleShapeChange, hcs]
    simp only [hj]
  · intro i hi
    exact nth_updateAt_ne _ _ _ _ hi
  · rw [nth_updateAt_self, hcs, Option.map_some']
    congr 1
    rw [updateAt_findIndex_eq_map cs.shapes sid p hnodup j hj]

/-- Folding the remaining patches over the once-merged shape is the same as
folding all patches, head included, over the original shape. -/
theorem mergeFold_step (s : ShapeData) (sid : String) (p : ShapePatch)
    (rest : List (String × ShapePatch)) :
    mergeFold (if s.id == sid then mergeShape s p else s) (patchesFor s.id rest) =
      mergeFold s (patchesFor s.id ((sid, p) :: rest)) := by
  by_cases h : s.id = sid
  · have h1 : (s.id == sid) = true := beq_iff_eq.mpr h
    have h2 : (sid == s.id) = true := beq_iff_eq.mpr h.symm
    simp only [patchesFor, h1, h2, if_pos, mergeFold, List.foldl_cons]
  · have h1 : (s.id == sid) = false := beq_eq_false_iff_ne.mpr h
    have h2 : (sid == s.id) = false := beq_eq_false_iff_ne.mpr (Ne.symm h)
    simp only [patchesFor, h1, h2, Bool.false_eq_true, if_false]

/-- C1: for every sequence of `applyShapeChange` calls each targeting an
existing shape on the current slide (shape ids on that slide being
pairwise distinct, as the data model requires), no call throws, the final
shapes of the current slide are exactly the left-fold merge, in call
order, of each shape's original attributes with the patches addressed to
it (`mergeFold s (patchesFor s.id calls)`; a shape targeted by no patch
gets the empty fold and is unchanged), every other slide is unchanged, and
the presentation's dimensions, the slide index and the selection are
untouched. -/
theorem applyShapeChange_foldMerge (st : EditorState)
    (calls : List (String × ShapePatch)) (cs : SlideData)
    (hcs : nth st.localPresentation.slides st.currentSlideIndex = some cs)
    (hnodup : (cs.shapes.map ShapeData.id).Nodup)
    (htargets : ∀ c ∈ calls, ∃ s ∈ cs.shapes, s.id = c.1) :
    ∃ stF, applyCalls st calls = Except.ok stF ∧
      stF.currentSlideIndex = st.currentSlideIndex ∧
      stF.selectedShapeId = st.selectedShapeId ∧
      stF.localPresentation.width = st.localPresentation.width ∧
      stF.localPresentation.height = st.localPresentation.height ∧
      (∀ i, i ≠ st.currentSlideIndex →
        nth stF.localPresentation.slides i = nth st.localPresentation.slides i) ∧
      nth stF.localPresentation.slides st.currentSlideIndex =
        some { cs with
          shapes := cs.shapes.map (fun s => mergeFold s (patchesFor s.id calls)) } := by
  induction calls generalizing st cs with
  | nil =>
    refine ⟨st, rfl, rfl, rfl, rfl, rfl, fun i _ => rfl, ?_⟩
    rw [hcs]
    exact congrArg some
      (congrArg (SlideData.mk cs.id cs.index cs.backgroundColor)
        (map_eq_self_on cs.shapes (fun s => mergeFold s (patchesFor s.id []))
          (fun s _ => rfl)).symm)
  | cons c rest ih =>
    obtain ⟨sid, p⟩ := c
    have hex : ∃ s ∈ cs.shapes, s.id = sid := htargets (sid, p) (List.mem_cons_self _ _)
    obtain ⟨st1, hok, hidx, hsel, hw, hh, _, hothers, hcur⟩ :=
      handleShapeChange_found st sid p cs hcs hex hnodup
    have hcs1 : nth st1.localPresentation.slides st1.currentSlideIndex =
        some { cs with
          shapes := cs.shapes.map (fun s => if s.id == sid then mergeShape s p else s) } := by
      rw [hidx]
      exact hcur
    have hnodup1 :
        ((({ cs with
          shapes := cs.shapes.map (fun s => if s.id == sid then mergeShape s p else s) } :
            SlideData).shapes).map ShapeData.id).Nodup := by
      show (((cs.shapes.map
        (fun s => if s.id == sid then mergeShape s p else s))).map ShapeData.id).Nodup
      rw [ids_map_guardedMerge]
      exact hnodup
    have htargets1 : ∀ c2 ∈ rest,
        ∃ s ∈ ({ cs with
          shapes := cs.shapes.map (fun s => if s.id == sid then mergeShape s p else s) } :
            SlideData).shapes, s.id = c2.1 := by
      intro c2 hc2
      rcases htargets c2 (List.mem_cons_of_mem _ hc2) with ⟨s, hs, hid⟩
      refine ⟨if s.id == sid then mergeShape s p else s,
        List.mem_map_of_mem _ hs, ?_⟩
      by_cases hcase : (s.id == sid) = true
      · rw [if_pos hcase, mergeShape_id]
        exact hid
      · rw [if_neg hcase]
        exact hid
    obtain ⟨stF, hF, hidx2, hsel2, hw2, hh2, hothers2, hcur2⟩ :=
      ih st1 _ hcs1 hnodup1 htargets1
    rw [hidx] at hothers2 hcur2
    refine ⟨stF, ?_, ?_, ?_, ?_, ?_, ?_, ?_⟩
    · simp only [applyCalls, hok]
      exact hF
    · rw [hidx2, hidx]
    · rw [hsel2, hsel]
    · rw [hw2, hw]
    · rw [hh2, hh]
    · intro i hi
      exact (hothers2 i hi).trans (hothers i hi)
    · have hmap : ((cs.shapes.map (fun s => if s.id == sid then mergeShape s p else s)).map
          (fun s => mergeFold s (patchesFor s.id rest))) =
          cs.shapes.map (fun s => mergeFold s (patchesFor s.id ((sid, p) :: rest))) := by
        rw [List.map_map]
        apply map_congr_on
        intro s _
        show mergeFold (if s.id == sid then mergeShape s p else s)
            (patchesFor (if s.id == sid then mergeShape s p else s).id rest) =
          mergeFold s (patchesFor s.id ((sid, p) :: rest))
        have hgid : (if s.id == sid then mergeShape s p else s).id = s.id := by
          by_cases hcase : (s.id == sid) = true
          · rw [if_pos hcase, mergeShape_id]
          · rw [if_neg hcase]
        rw [hgid]
        exact mergeFold_step s sid p rest
      rw [hcur2]
      exact congrArg some
        (congrArg (SlideData.mk cs.id cs.index cs.backgroundColor) hmap)

/-- Closed witness for C1: the fold-merge theorem applied to the sample
presentation and the sample call sequence, every hypothesis discharged by
evaluation. -/
theorem applyShapeChange_foldMerge_witness :
    (nth sampleState.localPresentation.slides sampleState.currentSlideIndex = some slide0) ∧
    ((slide0.shapes.map ShapeData.id).Nodup) ∧
    (∀ c ∈ sampleCalls, ∃ s ∈ slide0.shapes, s.id = c.1) ∧
    (∃ stF, applyCalls sampleState sampleCalls = Except.ok stF ∧
      stF.currentSlideIndex = sampleState.currentSlideIndex ∧
      stF.selectedShapeId = sampleState.selectedShapeId ∧
      stF.localPresentation.width = sampleState.localPresentation.width ∧
      stF.localPresentation.height = sampleState.localPresentation.height ∧
      (∀ i, i ≠ sampleState.currentSlideIndex →
        nth stF.localPresentation.slides i = nth sampleState.localPresentation.slides i) ∧
      nth stF.localPresentation.slides sampleState.currentSlideIndex =
        some { slide0 with
          shapes := slide0.shapes.map
            (fun s => mergeFold s (patchesFor s.id sampleCalls)) }) :=
  ⟨rfl, by decide, by decide,
    applyShapeChange_foldMerge sampleState sampleCalls slide0 rfl (by decide) (by decide)⟩

/-- C2 (amended): an `applyShapeChange` call whose `shapeId` matches no
shape on the current slide — the slide index itself being in range — returns
the state identically (presentation untouched, `hasChanges` not set) and
throws nothing.  The out-of-range-index case is settled separately: it
throws, see `handleShapeChange_outOfRange_throws`. -/
theorem handleShapeChange_missingShape_noop (st : EditorState) (sid : String)
    (p : ShapePatch) (cs : SlideData)
    (hcs : nth st.localPresentation.slides st.currentSlideIndex = some cs)
    (hmiss : ∀ s ∈ cs.shapes, s.id ≠ sid) :
    handleShapeChange st sid p = Except.ok st := by
  have hnone : findIndex (fun s => s.id == sid) cs.shapes = none := by
    apply findIndex_eq_none_of_all
    intro s hs
    exact beq_eq_false_iff_ne.mpr (hmiss s hs)
  rw [handleShapeChange, hcs]
  simp only [hnone]

/-- Closed witness for C2's no-op theorem: a miss on the sample slide. -/
theorem handleShapeChange_missingShape_noop_witness :
    (nth sampleState.localPresentation.slides sampleState.currentSlideIndex = some slide0) ∧
    (∀ s ∈ slide0.shapes, s.id ≠ "zz") ∧
    handleShapeChange sampleState "zz" { x := some 1 } = Except.ok sampleState :=
  ⟨rfl, by decide,
    handleShapeChange_missingShape_noop sampleState "zz" { x := some 1 } slide0 rfl (by decide)⟩

/-- C2 counterexample: with the current slide index out of range the claim
fails — `handleShapeChange` throws a `TypeError`
(`newPresentation.slides[slideIndex]` is `undefined`, reading `.shapes` of
it throws) instead of leaving the presentation unchanged without an
exception. -/
theorem handleShapeChange_outOfRange_throws :
    handleShapeChange outOfRangeState "a" { x := some 1 } = Except.error () ∧
    (¬ ∃ st1, handleShapeChange outOfRangeState "a" { x := some 1 } = Except.ok st1) := by
  constructor
  · rfl
  · rintro ⟨st1, h⟩
    rw [show handleShapeChange outOfRangeState "a" { x := some 1 } = Except.error () from rfl]
      at h
    exact Except.noConfusion h

/-- C3 (amended): a committed resize bakes the accumulated scale into the
shape as `width = max 20 (oldWidth * scaleX)` and
`height = max 20 (oldHeight * scaleY)` — hence both at least 20 — and
resets the transform control's scale to 1; a committed drag patches only
`x`/`y`, preserving `width` and `height` (so dimensions that were already
at least 20 stay so, but a shape loaded smaller than 20 keeps its size
across drags).  The claim's example: a 200×50 shape resized with
`scaleX = scaleY = 0.05` commits as 20×20, not 10×2.5. -/
theorem onTransformEnd_minSize (shape : ShapeData) (node : KonvaNode) :
    (mergeShape shape (onTransformEnd node).2).width = max 20 (node.width * node.scaleX) ∧
    (mergeShape shape (onTransformEnd node).2).height = max 20 (node.height * node.scaleY) ∧
    20 ≤ (mergeShape shape (onTransformEnd node).2).width ∧
    20 ≤ (mergeShape shape (onTransformEnd node).2).height ∧
    (onTransformEnd node).1.scaleX = 1 ∧
    (onTransformEnd node).1.scaleY = 1 ∧
    (mergeShape shape (onDragEnd node)).width = shape.width ∧
    (mergeShape shape (onDragEnd node)).height = shape.height ∧
    (onTransformEnd exampleResizeNode).2.width = some 20 ∧
    (onTransformEnd exampleResizeNode).2.height = some 20 := by
  refine ⟨rfl, rfl, le_max_left _ _, le_max_left _ _, rfl, rfl, rfl, rfl, ?_, ?_⟩
  · show some (max (20 : ℚ) ((200 : ℚ) * ((1 : ℚ)/20))) = some 20
    have h10 : (200 : ℚ) * ((1 : ℚ)/20) = 10 := by norm_num
    rw [h10, max_eq_left (by norm_num : (10 : ℚ) ≤ 20)]
  · show some (max (20 : ℚ) ((50 : ℚ) * ((1 : ℚ)/20))) = some 20
    have h52 : (50 : ℚ) * ((1 : ℚ)/20) = 5/2 := by norm_num
    rw [h52, max_eq_left (by norm_num : (5/2 : ℚ) ≤ 20)]

/-- C3 counterexample: the claim's blanket "after any committed drag ...
width ≥ 20" fails — committing a drag of a shape loaded as 10×10 leaves it
10×10. -/
theorem dragCommit_keepsSmallSize :
    (mergeShape tinyShape (onDragEnd tinyNode)).width = 10 ∧
    ¬ (20 ≤ (mergeShape tinyShape (onDragEnd tinyNode)).width) := by
  constructor
  · rfl
  · decide

/-- C4 (amended): when the `presentation` prop changes, the sync effect
replaces `localPresentation` and resets `hasChanges` to false — and nothing
else: `selectedShapeId` and `currentSlideIndex` keep their prior values. -/
theorem loadPresentation_resets (st : EditorState) (p : PresentationData) :
    (loadPresentation st p).localPresentation = p ∧
    (loadPresentation st p).hasChanges = false ∧
    (loadPresentation st p).selectedShapeId = st.selectedShapeId ∧
    (loadPresentation st p).currentSlideIndex = st.currentSlideIndex :=
  ⟨rfl, rfl, rfl, rfl⟩

/-- C4 counterexample: loading a new presentation into a state with a live
selection on slide 1 resets neither the selection to `null` nor the slide
index to 0. -/
theorem loadPresentation_keepsSelection :
    (loadPresentation selectedState singleSlidePres).selectedShapeId ≠ none ∧
    (loadPresentation selectedState singleSlidePres).currentSlideIndex ≠ 0 := by
  decide

/-- C5 (code-bug evidence): on a failed persistence request (non-ok HTTP
status or transport error) the user does get a visible notification
(`alert`), but `App.tsx` swallows the failure, so the promise handed to the
editor resolves and `handleSave` runs `setHasChanges(false)`: `hasChanges`
is `false` after a failed save, where the spec requires it to remain
`true`. -/
theorem failedSave_clearsHasChanges :
    (savePipeline dirtyState (FetchResult.httpError 500)).2.alertShown = true ∧
    (savePipeline dirtyState (FetchResult.httpError 500)).2.threw = false ∧
    (savePipeline dirtyState (FetchResult.httpError 500)).1.hasChanges = false ∧
    (savePipeline dirtyState FetchResult.transportError).2.alertShown = true ∧
    (savePipeline dirtyState FetchResult.transportError).1.hasChanges = false :=
  ⟨rfl, rfl, rfl, rfl, rfl⟩

/-- C6: single-flight save at the interaction surface.  From a dirty, idle
state a save click sends exactly one request and marks a save in flight; a
second click while the save is in flight is ignored (the button is
disabled, no request is sent, the state is unchanged); in general a click
on any in-flight state is a no-op, and the save affordance is disabled
exactly when `hasChanges` is false or a save is in flight. -/
theorem singleFlight_save (st : EditorState) (hch : st.hasChanges = true)
    (hsv : st.saving = false) :
    (clickSave st).2 = true ∧
    ((clickSave st).1).saving = true ∧
    (clickSave ((clickSave st).1)).2 = false ∧
    (clickSave ((clickSave st).1)).1 = (clickSave st).1 ∧
    (∀ st2 : EditorState, st2.saving = true → clickSave st2 = (st2, false)) ∧
    (∀ st2 : EditorState, saveButtonDisabled st2 = true ↔
      (st2.hasChanges = false ∨ st2.saving = true)) := by
  have hdis : saveButtonDisabled st = false := by
    simp [saveButtonDisabled, hch, hsv]
  have hsend : clickSave st = ({ st with saving := true }, true) := by
    simp [clickSave, hdis]
  have hflight : ∀ st2 : EditorState, st2.saving = true → clickSave st2 = (st2, false) := by
    intro st2 h2
    simp [clickSave, saveButtonDisabled, h2]
  refine ⟨by rw [hsend], by rw [hsend], ?_, ?_, hflight, ?_⟩
  · rw [hsend]
    show (clickSave { st with saving := true }).2 = false
    rw [hflight { st with saving := true } rfl]
  · rw [hsend]
    show (clickSave { st with saving := true }).1 = { st with saving := true }
    rw [hflight { st with saving := true } rfl]
  · intro st2
    cases hcb : st2.hasChanges <;> cases hsb : st2.saving <;>
      simp [saveButtonDisabled, hcb, hsb]

/-- Closed witness for C6: the single-flight theorem at the dirty idle
sample state. -/
theorem singleFlight_save_witness :
    dirtyState.hasChanges = true ∧
    dirtyState.saving = false ∧
    ((clickSave dirtyState).2 = true ∧
    ((clickSave dirtyState).1).saving = true ∧
    (clickSave ((clickSave dirtyState).1)).2 = false ∧
    (clickSave ((clickSave dirtyState).1)).1 = (clickSave dirtyState).1 ∧
    (∀ st2 : EditorState, st2.saving = true → clickSave st2 = (st2, false)) ∧
    (∀ st2 : EditorState, saveButtonDisabled st2 = true ↔
      (st2.hasChanges = false ∨ st2.saving = true))) :=
  ⟨rfl, rfl, singleFlight_save dirtyState rfl rfl⟩

/-- C7 (amended): a thumbnail click sets the slide index and always clears
the selection, but the Prev and Next buttons change the slide index while
leaving `selectedShapeId` untouched — selection does survive prev/next
navigation. -/
theorem slideNavigation_selection (st : EditorState) (i : Nat) :
    (thumbnailClick st i).selectedShapeId = none ∧
    (thumbnailClick st i).currentSlideIndex = i ∧
    (prevClick st).selectedShapeId = st.selectedShapeId ∧
    (nextClick st).selectedShapeId = st.selectedShapeId := by
  refine ⟨rfl, rfl, ?_, ?_⟩
  · rw [prevClick]
    split <;> rfl
  · rw [nextClick]
    split <;> rfl

/-- C7 counterexample: from slide 0 of the two-slide sample with shape "a"
selected, clicking Next changes the slide index to 1 but the selection is
still "a", not `null`. -/
theorem nextClick_keepsSelection :
    (nextClick navSelectedState).currentSlideIndex = 1 ∧
    (nextClick navSelectedState).selectedShapeId = some "a" := by
  decide

/-- C8 (amended): there is no clamping `goToSlide`; instead, out-of-range
navigation is prevented at the controls — Prev is disabled at index 0, Next
at the last index, and the rendered thumbnails only supply existing
indices — so from a valid index every navigation click keeps
`currentSlideIndex` in `[0, slideCount-1]` (and never throws, all handlers
being total).  Loading a presentation with fewer slides can still leave the
index out of range, see `goToSlide_noClamp`. -/
theorem slideIndex_stays_inRange (st : EditorState) (i : Nat)
    (h : st.currentSlideIndex < st.localPresentation.slides.length) :
    (prevClick st).currentSlideIndex < (prevClick st).localPresentation.slides.length ∧
    (nextClick st).currentSlideIndex < (nextClick st).localPresentation.slides.length ∧
    (i < st.localPresentation.slides.length →
      (thumbnailClick st i).currentSlideIndex <
        (thumbnailClick st i).localPresentation.slides.length) := by
  refine ⟨?_, ?_, fun hi => hi⟩
  · rw [prevClick]
    split
    · exact h
    · exact Nat.lt_of_le_of_lt (Nat.sub_le _ _) h
  · by_cases hc : ((st.currentSlideIndex : ℤ) ==
        (st.localPresentation.slides.length : ℤ) - 1) = true
    · rw [nextClick, if_pos hc]
      exact h
    · rw [nextClick, if_neg hc]
      show st.currentSlideIndex + 1 < st.localPresentation.slides.length
      have hne : (st.currentSlideIndex : ℤ) ≠
          (st.localPresentation.slides.length : ℤ) - 1 := by simpa using hc
      omega

/-- Closed witness for C8's amended theorem at the sample state. -/
theorem slideIndex_stays_inRange_witness :
    sampleState.currentSlideIndex < sampleState.localPresentation.slides.length ∧
    ((prevClick sampleState).currentSlideIndex <
        (prevClick sampleState).localPresentation.slides.length ∧
    (nextClick sampleState).currentSlideIndex <
        (nextClick sampleState).localPresentation.slides.length ∧
    (1 < sampleState.localPresentation.slides.length →
      (thumbnailClick sampleState 1).currentSlideIndex <
        (thumbnailClick sampleState 1).localPresentation.slides.length)) :=
  ⟨by decide, slideIndex_stays_inRange sampleState 1 (by decide)⟩

/-- C8 counterexample: `goToSlide` does not clamp — the thumbnail handler
applied to index 7 of a two-slide presentation sets the index to 7 — and
the invariant "the current slide index always stays within
`[0, slideCount-1]`" fails after loading a one-slide presentation into a
state sitting on slide 1: the index stays 1 ≥ 1. -/
theorem goToSlide_noClamp :
    (thumbnailClick sampleState 7).currentSlideIndex = 7 ∧
    ¬ ((thumbnailClick sampleState 7).currentSlideIndex <
        (thumbnailClick sampleState 7).localPresentation.slides.length) ∧
    (loadPresentation staleIndexState singleSlidePres).currentSlideIndex = 1 ∧
    ¬ ((loadPresentation staleIndexState singleSlidePres).currentSlideIndex <
      (loadPresentation staleIndexState singleSlidePres).localPresentation.slides.length) := by
  decide

/-- C9: pressing Escape in an open text-edit surface is the same code path
as losing focus — `textarea.blur()` fires `handleBlur` — so it destroys the
surface and commits the patch `{text: <surface value>}`: after the merge the
shape's text is the surface content, whatever the original text was (no
revert-to-original path); the surface opens pre-filled with the shape's
current text. -/
theorem escape_commits_like_blur (shape : ShapeData) (v : String) :
    escapeKeydown { value := v } = handleBlur { value := v } ∧
    (escapeKeydown { value := v }).1 = { text := some v } ∧
    (escapeKeydown { value := v }).2 = true ∧
    (mergeShape shape (escapeKeydown { value := v }).1).text = some v ∧
    (handleDblClick shape).value = shape.text.getD "" :=
  ⟨rfl, rfl, rfl, rfl, rfl⟩

/-- C10: when the slide at the current index does not exist (in particular
for an empty slides list), the component returns the `slide-editor-empty`
fallback — a view carrying no canvas, no shape, and no save affordance — so
no shape lookup, patch or save can run and no exception escapes (`render`
is total). -/
theorem render_fallback (st : EditorState)
    (h : nth st.localPresentation.slides st.currentSlideIndex = none) :
    render st = RenderView.empty := by
  rw [render, h]

/-- Closed witness for C10: the empty-slides presentation renders the
fallback. -/
theorem render_fallback_witness :
    nth emptySlidesState.localPresentation.slides emptySlidesState.currentSlideIndex = none ∧
    render emptySlidesState = RenderView.empty :=
  ⟨rfl, render_fallback emptySlidesState rfl⟩

end SlideEditorModel
